import Mathlib

/-!
Verification of the CI-trigger server (src/index.js) against its
natural-language specification.

The JavaScript source is shallowly embedded as pure Lean functions.
Side effects (shell commands, HTTP status posts, console logs) are
recorded as an explicit trace of events; the network environment
(response data for each status post, whether the working directory
exists, the test-command exit code) is an explicit parameter. A
rejected promise is modelled as Except.error, and an awaited rejection
propagates exactly as in the async/await source.
-/

namespace CI

/-- A build status object, as passed to updateStatus: a state string
(pending, success or failure) and a human-readable description. -/
structure Status where
  state : String
  description : String
deriving DecidableEq

/-- Observable effects of the program, in execution order.
Each shell.exec / client.post / console call in the source is recorded
as one event. -/
inductive Event where
  | statusPost (proc url state description : String)
  | mkdirP (dir : String)
  | gitClone (url dir : String)
  | cd (dir : String)
  | gitPull
  | npmInstall
  | npmTest (outputPath : String)
  | touch (file : String)
  | log (msg : String)
deriving DecidableEq

/-- Does the pattern list appear at the head of the second list
(substring search step used by the replace embedding). -/
def listStartsWith : List Char → List Char → Bool
  | [], _ => true
  | _ :: _, [] => false
  | p :: ps, c :: cs => p == c && listStartsWith ps cs

/-- JavaScript String.replace with a string pattern: replace the first
occurrence of pat by rep, leave the string unchanged when pat does not
occur. -/
def replaceFirstAux (pat rep : List Char) : List Char → List Char
  | [] => if listStartsWith pat [] then rep else []
  | c :: cs =>
      if listStartsWith pat (c :: cs) then rep ++ (c :: cs).drop pat.length
      else c :: replaceFirstAux pat rep cs

/-- String-level wrapper for replaceFirstAux. -/
def replaceFirst (s pat rep : String) : String :=
  String.mk (replaceFirstAux pat.data rep.data s.data)

/-- The URL the status is posted to, from updateStatus (line 295):
PR mode uses the repo URL verbatim, commit mode substitutes the commit
hash for the sha placeholder. The source appends the access-token query
string to this URL before posting; the token is configuration and is
not modelled. -/
def statusRepoURL (proc repo commit : String) : String :=
  if proc == "PR" then repo else replaceFirst repo "{sha}" commit

/-- updateStatus (lines 281-312): posts state and description to the
status API and returns a promise. The callback resolves with the
response data when it is non-empty ("if(data)") and logs a fixed
message; on empty data it logs a fixed error message and calls
reject() with no argument, modelled as Except.error none. The response
body argument is received by the callback but never used. -/
def updateStatus (data body proc repo commit : String) (status : Status) :
    List Event × Except (Option String) String :=
  ([Event.statusPost proc (statusRepoURL proc repo commit) status.state status.description,
    Event.log (if data = "" then "Something went wrong" else "Status updated")],
   if data = "" then Except.error none else Except.ok data)

/-- Hard-coded output-log root from line 335 of the source. -/
def outputRoot : String := "/Users/santhoshraju/Documents/github-node-webhook/"

/-- Hard-coded per-commit working-directory root from lines 354 and 390. -/
def workRoot : String := "/Users/santhoshraju/Documents/github-node-webhook/PRS/"

/-- makeBuild (lines 324-336): when the working directory does not
exist, create it with mkdir -p, clone into it and cd there; otherwise
cd there and pull. Then install dependencies and run the test command,
appending its output to outputRoot ++ outputFile. Returns the exec
result, whose code field is the test-command exit code (supplied here
by the environment). -/
def makeBuild (dirExists : Bool) (exitCode : Nat) (cloneURL cwd outputFile : String) :
    List Event × Nat :=
  ((if !dirExists then
      [Event.mkdirP cwd, Event.gitClone cloneURL cwd, Event.cd cwd]
    else
      [Event.cd cwd, Event.gitPull]) ++
   [Event.npmInstall, Event.npmTest (outputRoot ++ outputFile)],
   exitCode)

/-- The final state string computed at lines 358 and 393:
failure exactly when the exit code equals 1, success otherwise. -/
def buildState (code : Nat) : String :=
  if code = 1 then "failure" else "success"

/-- The final description string computed at lines 359 and 394. -/
def buildDescription (code : Nat) : String :=
  if code = 1 then "Build & tests failed" else "Build & test case execution success"

/-- The environment of one pipeline invocation: the response data and
response body the status API returns for the pending post and for the
final post, whether the working directory already exists, and the exit
code of the test command. -/
structure Env where
  pendingData : String
  pendingBody : String
  finalData : String
  finalBody : String
  dirExists : Bool
  exitCode : Nat
deriving DecidableEq

/-- The fields of a push event payload that the source reads. -/
structure PushPayload where
  ref : String
  statuses_url : String
  clone_url : String
  head_commit_id : String
deriving DecidableEq

/-- The fields of a pull-request event payload that the source reads. -/
structure PRPayload where
  statuses_url : String
  head_sha : String
  base_clone_url : String
deriving DecidableEq

/-- buildProcess (lines 343-372): await the pending status post (a
rejection propagates and aborts the rest), build in the per-commit
working directory, post the final status derived from the exit code,
and return the raw exit code. -/
def buildProcess (env : Env) (r : PushPayload) (outputFile : String) :
    List Event × Except (Option String) Nat :=
  let s1 := updateStatus env.pendingData env.pendingBody "Commit" r.statuses_url
      r.head_commit_id ⟨"pending", "Running build & tests"⟩
  match s1.2 with
  | Except.error e => (s1.1, Except.error e)
  | Except.ok _ =>
      let cwd := workRoot ++ r.head_commit_id
      let b := makeBuild env.dirExists env.exitCode r.clone_url cwd outputFile
      let s2 := updateStatus env.finalData env.finalBody "Commit" r.statuses_url
          r.head_commit_id ⟨buildState b.2, buildDescription b.2⟩
      match s2.2 with
      | Except.error e => (s1.1 ++ b.1 ++ s2.1, Except.error e)
      | Except.ok _ => (s1.1 ++ b.1 ++ s2.1, Except.ok b.2)

/-- buildPRProcess (lines 380-404): same shape in PR mode. The call to
makeBuild at line 391 passes no third argument, so the interpolated
output path ends in the string undefined; the function returns no
value. -/
def buildPRProcess (env : Env) (pr : PRPayload) :
    List Event × Except (Option String) Unit :=
  let s1 := updateStatus env.pendingData env.pendingBody "PR" pr.statuses_url ""
      ⟨"pending", "Running build & tests"⟩
  match s1.2 with
  | Except.error e => (s1.1, Except.error e)
  | Except.ok _ =>
      let cwd := workRoot ++ pr.head_sha
      let b := makeBuild env.dirExists env.exitCode pr.base_clone_url cwd "undefined"
      let s2 := updateStatus env.finalData env.finalBody "PR" pr.statuses_url ""
          ⟨buildState b.2, buildDescription b.2⟩
      match s2.2 with
      | Except.error e => (s1.1 ++ b.1 ++ s2.1, Except.error e)
      | Except.ok _ => (s1.1 ++ b.1 ++ s2.1, Except.ok ())

/-- How JavaScript renders a caught rejection value inside a template
string: reject() rejects with undefined. -/
def jsErrString : Option String → String
  | none => "undefined"
  | some s => s

/-- The body of try block of deployProcess (lines 413-426): create the
timestamped output file, run buildProcess with it, then log which
branch (deploy or failure notification) is taken based on the returned
exit code. A rejection from buildProcess escapes the body. -/
def deployBody (env : Env) (now : Nat) (output : String) (r : PushPayload) :
    List Event × Except (Option String) Unit :=
  let outputFile := output ++ toString now ++ ".txt"
  let b := buildProcess env r outputFile
  match b.2 with
  | Except.ok buildStatus =>
      (Event.touch outputFile :: b.1 ++
        [Event.log (if buildStatus = 0 then "build successfull" else "build failed")],
       Except.ok ())
  | Except.error e => (Event.touch outputFile :: b.1, Except.error e)

/-- The try/catch wrapper of deployProcess (lines 412-429): a rejection
from the body is caught and logged; nothing is rethrown. -/
def tryCatchLog (body : List Event × Except (Option String) Unit) :
    List Event × Except (Option String) Unit :=
  match body.2 with
  | Except.ok _ => body
  | Except.error e =>
      (body.1 ++ [Event.log ("Something went wrong " ++ jsErrString e)], Except.ok ())

/-- deployProcess (lines 411-430). -/
def deployProcess (env : Env) (now : Nat) (output : String) (r : PushPayload) :
    List Event × Except (Option String) Unit :=
  tryCatchLog (deployBody env now output r)

/-- JavaScript Array.indexOf: index of the first occurrence, -1 when
absent. -/
def jsIndexOfAux (x : String) : List String → Int → Int
  | [], _ => -1
  | y :: ys, i => if y == x then i else jsIndexOfAux x ys (i + 1)

/-- Array.indexOf starting the scan at index 0. -/
def jsIndexOf (l : List String) (x : String) : Int := jsIndexOfAux x l 0

/-- The push handler (lines 435-444): when deployFor.indexOf(ref) is at
least 0, log the start message and run deployProcess; otherwise the
body is a comment and nothing happens. -/
def handlerPush (deployFor : List String) (env : Env) (now : Nat) (output : String)
    (p : PushPayload) : List Event :=
  if 0 ≤ jsIndexOf deployFor p.ref then
    Event.log "Deployment process started" :: (deployProcess env now output p).1
  else []

/-- Is an event a post to the status API. -/
def isStatusPost : Event → Bool
  | Event.statusPost _ _ _ _ => true
  | _ => false

/-- The status-API posts of a trace, in order. -/
def statusPosts (t : List Event) : List Event := t.filter isStatusPost

/-- A concrete push payload used for concrete evaluations. -/
def examplePush : PushPayload :=
  ⟨"refs/heads/develop", "https://api.github.com/repos/o/r/statuses/{sha}",
   "https://example.com/repo.git", "abc123"⟩

/-- A concrete pull-request payload used for concrete evaluations. -/
def examplePR : PRPayload :=
  ⟨"https://api.github.com/repos/o/r/statuses/def456", "def456",
   "https://example.com/repo.git"⟩

/-- An environment in which both status posts receive non-empty
response data, the working directory already exists, and the test
command exits with the given code. -/
def exampleEnv (c : Nat) : Env := ⟨"ok", "", "ok", "", true, c⟩

/-- An environment in which the pending status post receives an empty
response (so its promise rejects) while a non-empty response body is
available to the callback. -/
def rejectingEnv : Env := ⟨"", "HTTP 500: server error body", "ok", "", true, 0⟩

/-! Helper lemmas about the embedding. -/

theorem string_data_append (a b : String) : (a ++ b).data = a.data ++ b.data := by
  cases a; cases b; rfl

theorem string_mk_data (s : String) : String.mk s.data = s := by
  cases s; rfl

theorem listStartsWith_self (p q : List Char) : listStartsWith p (p ++ q) = true := by
  induction p with
  | nil => rfl
  | cons c cs ih => simp [listStartsWith, ih]

theorem replaceFirstAux_append (c : Char) (pt rep q : List Char) :
    ∀ p : List Char, c ∉ p →
      replaceFirstAux (c :: pt) rep (p ++ ((c :: pt) ++ q)) = p ++ (rep ++ q) := by
  intro p
  induction p with
  | nil =>
      intro _
      have h1 : listStartsWith (c :: pt) ((c :: pt) ++ q) = true := listStartsWith_self _ _
      rw [List.nil_append, List.nil_append, List.cons_append, replaceFirstAux,
        ← List.cons_append, h1, if_pos rfl, List.drop_left]
  | cons a p ih =>
      intro h
      have hca : c ≠ a := fun hh => h (hh ▸ List.mem_cons_self a p)
      have hcp : c ∉ p := fun hh => h (List.mem_cons_of_mem a hh)
      have hsw : listStartsWith (c :: pt) (a :: (p ++ (c :: (pt ++ q)))) = false := by
        simp [listStartsWith, hca]
      rw [List.cons_append, List.cons_append, replaceFirstAux, hsw,
        if_neg (by simp), List.cons_append]
      congr 1
      rw [← List.cons_append]
      exact ih hcp

theorem statusRepoURL_pr (u cm : String) : statusRepoURL "PR" u cm = u := rfl

theorem updateStatus_fst (data body proc repo commit : String) (st : Status) :
    (updateStatus data body proc repo commit st).1 =
      [Event.statusPost proc (statusRepoURL proc repo commit) st.state st.description,
       Event.log (if data = "" then "Something went wrong" else "Status updated")] := rfl

theorem updateStatus_snd (data body proc repo commit : String) (st : Status) :
    (updateStatus data body proc repo commit st).2 =
      (if data = "" then Except.error none else Except.ok data) := rfl

theorem makeBuild_snd (d : Bool) (c : Nat) (u w o : String) :
    (makeBuild d c u w o).2 = c := rfl

theorem makeBuild_no_posts (d : Bool) (c : Nat) (u w o : String) :
    statusPosts (makeBuild d c u w o).1 = [] := by
  cases d <;> simp [makeBuild, statusPosts, isStatusPost, List.filter]

theorem buildProcess_trace_ok (env : Env) (r : PushPayload) (o : String)
    (hp : env.pendingData ≠ "") :
    (buildProcess env r o).1 =
      Event.statusPost "Commit" (statusRepoURL "Commit" r.statuses_url r.head_commit_id)
          "pending" "Running build & tests" ::
        Event.log "Status updated" ::
        ((makeBuild env.dirExists env.exitCode r.clone_url (workRoot ++ r.head_commit_id) o).1 ++
          [Event.statusPost "Commit" (statusRepoURL "Commit" r.statuses_url r.head_commit_id)
              (buildState env.exitCode) (buildDescription env.exitCode),
           Event.log (if env.finalData = "" then "Something went wrong" else "Status updated")]) := by
  by_cases hf : env.finalData = "" <;>
    simp [buildProcess, updateStatus, makeBuild_snd, hp, hf]

theorem buildPRProcess_trace_ok (env : Env) (pr : PRPayload)
    (hp : env.pendingData ≠ "") :
    (buildPRProcess env pr).1 =
      Event.statusPost "PR" pr.statuses_url "pending" "Running build & tests" ::
        Event.log "Status updated" ::
        ((makeBuild env.dirExists env.exitCode pr.base_clone_url (workRoot ++ pr.head_sha)
            "undefined").1 ++
          [Event.statusPost "PR" pr.statuses_url
              (buildState env.exitCode) (buildDescription env.exitCode),
           Event.log (if env.finalData = "" then "Something went wrong" else "Status updated")]) := by
  by_cases hf : env.finalData = "" <;>
    simp [buildPRProcess, updateStatus, makeBuild_snd, statusRepoURL_pr, hp, hf]

theorem buildProcess_snd_ok (env : Env) (r : PushPayload) (o : String)
    (hp : env.pendingData ≠ "") (hf : env.finalData ≠ "") :
    (buildProcess env r o).2 = Except.ok env.exitCode := by
  simp [buildProcess, updateStatus, makeBuild_snd, hp, hf]

theorem pendingPost_mem_buildProcess (env : Env) (r : PushPayload) (o : String) :
    Event.statusPost "Commit" (statusRepoURL "Commit" r.statuses_url r.head_commit_id)
      "pending" "Running build & tests" ∈ (buildProcess env r o).1 := by
  by_cases hp : env.pendingData = "" <;>
    by_cases hf : env.finalData = "" <;>
      simp [buildProcess, updateStatus, hp, hf]

theorem mem_tryCatchLog (e : Event) (b : List Event × Except (Option String) Unit)
    (h : e ∈ b.1) : e ∈ (tryCatchLog b).1 := by
  simp only [tryCatchLog]
  cases hb : b.2 <;> simp [hb, List.mem_append, h]

theorem pendingPost_mem_deployProcess (env : Env) (now : Nat) (output : String)
    (r : PushPayload) :
    Event.statusPost "Commit" (statusRepoURL "Commit" r.statuses_url r.head_commit_id)
      "pending" "Running build & tests" ∈ (deployProcess env now output r).1 := by
  apply mem_tryCatchLog
  simp only [deployBody]
  cases hb : (buildProcess env r (output ++ toString now ++ ".txt")).2 <;>
    simp [hb, List.mem_append, pendingPost_mem_buildProcess]

theorem deployProcess_trace_ok (env : Env) (now : Nat) (output : String) (r : PushPayload)
    (hp : env.pendingData ≠ "") (hf : env.finalData ≠ "") :
    (deployProcess env now output r).1 =
      Event.touch (output ++ toString now ++ ".txt") ::
        ((buildProcess env r (output ++ toString now ++ ".txt")).1 ++
          [Event.log (if env.exitCode = 0 then "build successfull" else "build failed")]) := by
  have hb := buildProcess_snd_ok env r (output ++ toString now ++ ".txt") hp hf
  simp [deployProcess, deployBody, tryCatchLog, hb]

theorem jsIndexOfAux_nonneg_iff (x : String) (l : List String) : ∀ i : Int, 0 ≤ i →
    (0 ≤ jsIndexOfAux x l i ↔ x ∈ l) := by
  induction l with
  | nil =>
      intro i hi
      simp [jsIndexOfAux]
  | cons y ys ih =>
      intro i hi
      by_cases h : (y == x) = true
      · have hyx : y = x := by simpa using h
        simp [jsIndexOfAux, h, hyx, hi]
      · have hyx : ¬ y = x := by simpa using h
        have hxy : ¬ x = y := fun hh => hyx hh.symm
        have step := ih (i + 1) (by omega)
        simp [jsIndexOfAux, h, step, List.mem_cons, hxy]

theorem jsIndexOf_nonneg_iff_mem (l : List String) (x : String) :
    0 ≤ jsIndexOf l x ↔ x ∈ l :=
  jsIndexOfAux_nonneg_iff x l 0 le_rfl

/-! Claim theorems. -/

/-- C1: the source maps the test-command exit code to the final status
with the check code = 1, so only exit code 1 is reported as failure;
every other code, including 127, is reported as success with the
success description. This contradicts the claim that every non-zero
exit code maps to failure; the evaluation below exhibits the actual
behaviour of the code at exit codes 0, 1 and 127, including the success
status actually posted by the pipeline at exit code 127. -/
theorem buildState_only_code_one_fails :
    buildState 0 = "success" ∧ buildState 1 = "failure" ∧ buildState 127 = "success" ∧
    buildDescription 127 = "Build & test case execution success" ∧
    Event.statusPost "Commit" "https://api.github.com/repos/o/r/statuses/abc123"
        "success" "Build & test case execution success"
      ∈ (buildProcess (exampleEnv 127) examplePush "out.txt").1 := by
  decide

/-- C6: when the working directory does not exist, makeBuild creates it
(mkdir -p) and clones into it and never pulls; when it exists, makeBuild
pulls and never clones or creates the directory; in both cases the
dependency install and the test command follow. -/
theorem makeBuild_clone_or_pull (c : Nat) (cloneURL cwd outputFile : String) :
    (makeBuild false c cloneURL cwd outputFile).1 =
      [Event.mkdirP cwd, Event.gitClone cloneURL cwd, Event.cd cwd,
       Event.npmInstall, Event.npmTest (outputRoot ++ outputFile)] ∧
    (makeBuild true c cloneURL cwd outputFile).1 =
      [Event.cd cwd, Event.gitPull, Event.npmInstall, Event.npmTest (outputRoot ++ outputFile)] ∧
    Event.gitPull ∉ (makeBuild false c cloneURL cwd outputFile).1 ∧
    Event.gitClone cloneURL cwd ∉ (makeBuild true c cloneURL cwd outputFile).1 ∧
    Event.mkdirP cwd ∉ (makeBuild true c cloneURL cwd outputFile).1 := by
  refine ⟨rfl, rfl, ?_, ?_, ?_⟩ <;> simp [makeBuild]

/-- C7: pull-request mode uses the callback URL verbatim, while commit
mode substitutes the commit hash for the sha placeholder of the
templated URL (stated for any templated URL whose prefix contains no
opening brace, so the placeholder is the first occurrence). -/
theorem statusRepoURL_commit_substitutes_pr_verbatim (url base cm : String)
    (hb : ('\x7b' : Char) ∉ base.data) :
    statusRepoURL "PR" url cm = url ∧
    statusRepoURL "Commit" (base ++ "{sha}") cm = base ++ cm := by
  constructor
  · rfl
  · have hcommit : statusRepoURL "Commit" (base ++ "{sha}") cm =
        replaceFirst (base ++ "{sha}") "{sha}" cm := by
      simp [statusRepoURL]
    rw [hcommit]
    unfold replaceFirst
    have hpat : ("{sha}".data : List Char) = '\x7b' :: ['s', 'h', 'a', '\x7d'] := rfl
    have hd : (base ++ "{sha}").data =
        base.data ++ (('\x7b' :: ['s', 'h', 'a', '\x7d']) ++ []) := by
      rw [string_data_append, List.append_nil]
    rw [hpat, hd, replaceFirstAux_append '\x7b' ['s', 'h', 'a', '\x7d'] cm.data [] base.data hb,
      List.append_nil, ← string_data_append, string_mk_data]

/-- Witness for the C7 theorem at a concrete GitHub statuses URL and
commit hash. -/
theorem statusRepoURL_commit_substitutes_pr_verbatim_witness :
    (('\x7b' : Char) ∉ "https://api.github.com/repos/o/r/statuses/".data) ∧
    (statusRepoURL "PR" "https://api.github.com/repos/o/r/statuses/17" "abc123" =
        "https://api.github.com/repos/o/r/statuses/17" ∧
      statusRepoURL "Commit" ("https://api.github.com/repos/o/r/statuses/" ++ "{sha}") "abc123" =
        "https://api.github.com/repos/o/r/statuses/" ++ "abc123") :=
  ⟨by decide,
   statusRepoURL_commit_substitutes_pr_verbatim
     "https://api.github.com/repos/o/r/statuses/17"
     "https://api.github.com/repos/o/r/statuses/" "abc123" (by decide)⟩

/-- C8 counterexample: on an empty response the promise returned by the
status reporter rejects with no argument at all (reject() on line 307), so the
rejection does not carry the response body, although a non-empty
response body is available to the callback. -/
theorem updateStatus_reject_discards_body :
    (updateStatus "" "HTTP 500: server error body" "Commit"
        "https://api.github.com/repos/o/r/statuses/{sha}" "abc123"
        ⟨"pending", "Running build & tests"⟩).2 = Except.error none ∧
    (Except.error none : Except (Option String) String) ≠
      Except.error (some "HTTP 500: server error body") := by
  exact ⟨rfl, by simp⟩

/-- C8 amended: the reporter resolves with the response data exactly
when the data is non-empty (logging a fixed success message), and on
empty data it logs a fixed generic message and rejects carrying no
payload; the response body is never attached. -/
theorem updateStatus_resolve_iff_nonempty
    (data body proc repo commit state descr : String) :
    if data = "" then
      (updateStatus data body proc repo commit ⟨state, descr⟩).2 = Except.error none ∧
        Event.log "Something went wrong" ∈
          (updateStatus data body proc repo commit ⟨state, descr⟩).1
    else
      (updateStatus data body proc repo commit ⟨state, descr⟩).2 = Except.ok data ∧
        Event.log "Status updated" ∈
          (updateStatus data body proc repo commit ⟨state, descr⟩).1 := by
  by_cases h : data = "" <;> simp [updateStatus, h]

/-- Log events never occur in a makeBuild trace. -/
theorem log_not_mem_makeBuild (m : String) (d : Bool) (c : Nat) (u w o : String) :
    Event.log m ∉ (makeBuild d c u w o).1 := by
  cases d <;> simp [makeBuild]

/-- C2 counterexample: in an execution whose pending status post gets an
empty response, the reporter is invoked exactly once, not twice: the
awaited rejection aborts buildProcess before the final post. -/
theorem buildProcess_pending_reject_posts_once :
    statusPosts (buildProcess rejectingEnv examplePush "out.txt").1 =
      [Event.statusPost "Commit" "https://api.github.com/repos/o/r/statuses/abc123"
        "pending" "Running build & tests"] ∧
    (statusPosts (buildProcess rejectingEnv examplePush "out.txt").1).length ≠ 2 := by
  decide

/-- C2 amended: in every pipeline execution (commit or pull-request
mode) whose pending status post succeeds, the status reporter is
invoked exactly twice: once with state pending before any build
command, once with state success or failure after the build commands,
in that order, and the build itself performs no status posts. (When the
pending post rejects, the execution aborts after that single
invocation.) -/
theorem pipeline_reports_pending_then_final (env : Env) (r : PushPayload) (pr : PRPayload)
    (o : String) (hp : env.pendingData ≠ "") :
    (buildProcess env r o).1 =
      Event.statusPost "Commit" (statusRepoURL "Commit" r.statuses_url r.head_commit_id)
          "pending" "Running build & tests" ::
        Event.log "Status updated" ::
        ((makeBuild env.dirExists env.exitCode r.clone_url (workRoot ++ r.head_commit_id) o).1 ++
          [Event.statusPost "Commit" (statusRepoURL "Commit" r.statuses_url r.head_commit_id)
              (buildState env.exitCode) (buildDescription env.exitCode),
           Event.log (if env.finalData = "" then "Something went wrong" else "Status updated")]) ∧
    statusPosts
      (makeBuild env.dirExists env.exitCode r.clone_url (workRoot ++ r.head_commit_id) o).1 = [] ∧
    (buildState env.exitCode = "success" ∨ buildState env.exitCode = "failure") ∧
    (buildPRProcess env pr).1 =
      Event.statusPost "PR" pr.statuses_url "pending" "Running build & tests" ::
        Event.log "Status updated" ::
        ((makeBuild env.dirExists env.exitCode pr.base_clone_url (workRoot ++ pr.head_sha)
            "undefined").1 ++
          [Event.statusPost "PR" pr.statuses_url
              (buildState env.exitCode) (buildDescription env.exitCode),
           Event.log (if env.finalData = "" then "Something went wrong" else "Status updated")]) ∧
    statusPosts
      (makeBuild env.dirExists env.exitCode pr.base_clone_url (workRoot ++ pr.head_sha)
        "undefined").1 = [] := by
  refine ⟨buildProcess_trace_ok env r o hp, makeBuild_no_posts _ _ _ _ _, ?_,
    buildPRProcess_trace_ok env pr hp, makeBuild_no_posts _ _ _ _ _⟩
  by_cases h1 : env.exitCode = 1
  · exact Or.inr (by simp [buildState, h1])
  · exact Or.inl (by simp [buildState, h1])

/-- Witness for the amended C2 theorem at a concrete environment whose
status posts both succeed. -/
theorem pipeline_reports_pending_then_final_witness :
    (exampleEnv 0).pendingData ≠ "" ∧
    ((buildProcess (exampleEnv 0) examplePush "out.txt").1 =
      Event.statusPost "Commit"
          (statusRepoURL "Commit" examplePush.statuses_url examplePush.head_commit_id)
          "pending" "Running build & tests" ::
        Event.log "Status updated" ::
        ((makeBuild true 0 examplePush.clone_url (workRoot ++ examplePush.head_commit_id)
            "out.txt").1 ++
          [Event.statusPost "Commit"
              (statusRepoURL "Commit" examplePush.statuses_url examplePush.head_commit_id)
              (buildState 0) (buildDescription 0),
           Event.log "Status updated"]) ∧
    statusPosts
      (makeBuild true 0 examplePush.clone_url (workRoot ++ examplePush.head_commit_id)
        "out.txt").1 = [] ∧
    (buildState 0 = "success" ∨ buildState 0 = "failure") ∧
    (buildPRProcess (exampleEnv 0) examplePR).1 =
      Event.statusPost "PR" examplePR.statuses_url "pending" "Running build & tests" ::
        Event.log "Status updated" ::
        ((makeBuild true 0 examplePR.base_clone_url (workRoot ++ examplePR.head_sha)
            "undefined").1 ++
          [Event.statusPost "PR" examplePR.statuses_url
              (buildState 0) (buildDescription 0),
           Event.log "Status updated"]) ∧
    statusPosts
      (makeBuild true 0 examplePR.base_clone_url (workRoot ++ examplePR.head_sha)
        "undefined").1 = []) :=
  ⟨by decide,
   pipeline_reports_pending_then_final (exampleEnv 0) examplePush examplePR "out.txt"
     (by decide)⟩

/-- C3: the push handler runs the deploy pipeline (log line then
deployProcess) exactly when the push ref is a member of the configured
deploy-ref list, and otherwise does nothing at all; consequently a
status post occurs if and only if the ref is in the list. -/
theorem handlerPush_build_iff_deploy_ref (deployFor : List String) (env : Env) (now : Nat)
    (output : String) (p : PushPayload) :
    handlerPush deployFor env now output p =
      (if p.ref ∈ deployFor then
        Event.log "Deployment process started" :: (deployProcess env now output p).1
      else []) ∧
    (statusPosts (handlerPush deployFor env now output p) ≠ [] ↔ p.ref ∈ deployFor) := by
  have hmem := jsIndexOf_nonneg_iff_mem deployFor p.ref
  have heq : handlerPush deployFor env now output p =
      (if p.ref ∈ deployFor then
        Event.log "Deployment process started" :: (deployProcess env now output p).1
      else []) := by
    unfold handlerPush
    by_cases h : p.ref ∈ deployFor
    · rw [if_pos (hmem.mpr h), if_pos h]
    · rw [if_neg (fun hc => h (hmem.mp hc)), if_neg h]
  refine ⟨heq, ?_⟩
  rw [heq]
  by_cases h : p.ref ∈ deployFor
  · rw [if_pos h]
    simp only [h, iff_true]
    have hpend := pendingPost_mem_deployProcess env now output p
    intro hnil
    have hmem2 : Event.statusPost "Commit"
        (statusRepoURL "Commit" p.statuses_url p.head_commit_id)
        "pending" "Running build & tests" ∈
        statusPosts (Event.log "Deployment process started" ::
          (deployProcess env now output p).1) := by
      simp [statusPosts, List.mem_filter, isStatusPost, hpend]
    rw [hnil] at hmem2
    cases hmem2
  · rw [if_neg h]
    simp [statusPosts, h]

/-- C4 counterexample: with the deploy ref matched and the pending post
receiving an empty response, the build does not execute at all: the
trace holds only the touch of the output file, the single pending post
attempt, its error log and the catch log; no clone, install, test or
branch decision happens, although the claim requires the build to still
execute. -/
theorem deployProcess_pending_reject_no_build_example :
    (deployProcess rejectingEnv 5 "/logs/" examplePush).1 =
      [Event.touch "/logs/5.txt",
       Event.statusPost "Commit" "https://api.github.com/repos/o/r/statuses/abc123"
         "pending" "Running build & tests",
       Event.log "Something went wrong",
       Event.log "Something went wrong undefined"] ∧
    Event.npmInstall ∉ (deployProcess rejectingEnv 5 "/logs/" examplePush).1 ∧
    Event.gitPull ∉ (deployProcess rejectingEnv 5 "/logs/" examplePush).1 ∧
    Event.log "build successfull" ∉ (deployProcess rejectingEnv 5 "/logs/" examplePush).1 ∧
    Event.log "build failed" ∉ (deployProcess rejectingEnv 5 "/logs/" examplePush).1 := by
  decide

/-- C4 amended: when the pending status post fails, the awaited
rejection aborts buildProcess before makeBuild runs: no build command
executes, deployProcess catches the rejection and logs it, and neither
the deploy branch nor the failure-notification branch is entered. -/
theorem deployProcess_pending_reject_aborts (env : Env) (now : Nat) (output : String)
    (r : PushPayload) (h : env.pendingData = "") :
    (deployProcess env now output r).1 =
      [Event.touch (output ++ toString now ++ ".txt"),
       Event.statusPost "Commit" (statusRepoURL "Commit" r.statuses_url r.head_commit_id)
         "pending" "Running build & tests",
       Event.log "Something went wrong",
       Event.log ("Something went wrong " ++ jsErrString none)] ∧
    Event.npmInstall ∉ (deployProcess env now output r).1 ∧
    Event.log "build successfull" ∉ (deployProcess env now output r).1 ∧
    Event.log "build failed" ∉ (deployProcess env now output r).1 ∧
    (deployProcess env now output r).2 = Except.ok () := by
  have htr : (deployProcess env now output r).1 =
      [Event.touch (output ++ toString now ++ ".txt"),
       Event.statusPost "Commit" (statusRepoURL "Commit" r.statuses_url r.head_commit_id)
         "pending" "Running build & tests",
       Event.log "Something went wrong",
       Event.log ("Something went wrong " ++ jsErrString none)] := by
    simp [deployProcess, deployBody, tryCatchLog, buildProcess, updateStatus, h]
  refine ⟨htr, ?_, ?_, ?_, ?_⟩
  · rw [htr]; simp
  · rw [htr]; simp [jsErrString]
  · rw [htr]; simp [jsErrString]
  · simp [deployProcess, deployBody, tryCatchLog, buildProcess, updateStatus, h]

/-- Witness for the amended C4 theorem at a concrete rejecting
environment. -/
theorem deployProcess_pending_reject_aborts_witness :
    rejectingEnv.pendingData = "" ∧
    ((deployProcess rejectingEnv 7 "/logs/" examplePush).1 =
      [Event.touch ("/logs/" ++ toString 7 ++ ".txt"),
       Event.statusPost "Commit"
         (statusRepoURL "Commit" examplePush.statuses_url examplePush.head_commit_id)
         "pending" "Running build & tests",
       Event.log "Something went wrong",
       Event.log ("Something went wrong " ++ jsErrString none)] ∧
    Event.npmInstall ∉ (deployProcess rejectingEnv 7 "/logs/" examplePush).1 ∧
    Event.log "build successfull" ∉ (deployProcess rejectingEnv 7 "/logs/" examplePush).1 ∧
    Event.log "build failed" ∉ (deployProcess rejectingEnv 7 "/logs/" examplePush).1 ∧
    (deployProcess rejectingEnv 7 "/logs/" examplePush).2 = Except.ok ()) :=
  ⟨rfl, deployProcess_pending_reject_aborts rejectingEnv 7 "/logs/" examplePush rfl⟩

/-- C5: at test exit code 127 the deploy gate takes the
failure-notification branch (it branches on the returned raw exit code
being 0) even though the status actually posted by the pipeline for
that build is success, so "deploy if and only if the resulting status
is success" fails; the second part of the claim, that the commit-mode
pipeline returns the raw exit code, is visible in the final conjunct. -/
theorem deploy_branch_disagrees_with_posted_status_at_127 :
    Event.statusPost "Commit" "https://api.github.com/repos/o/r/statuses/abc123"
        "success" "Build & test case execution success"
      ∈ (deployProcess (exampleEnv 127) 5 "/logs/" examplePush).1 ∧
    Event.log "build failed" ∈ (deployProcess (exampleEnv 127) 5 "/logs/" examplePush).1 ∧
    Event.log "build successfull" ∉ (deployProcess (exampleEnv 127) 5 "/logs/" examplePush).1 ∧
    (buildProcess (exampleEnv 127) examplePush "5.txt").2 = Except.ok 127 := by
  exact ⟨by decide, by decide, by decide, rfl⟩

/-- C9: deployProcess never rejects, whatever the environment, payload
or timestamp: every rejection inside the pipeline is caught by its
try/catch and only logged, as the second conjunct shows for an
execution whose pending post rejects. -/
theorem deployProcess_never_rejects (env : Env) (now : Nat) (output : String)
    (r : PushPayload) :
    (deployProcess env now output r).2 = Except.ok () ∧
    Event.log ("Something went wrong " ++ jsErrString none)
      ∈ (deployProcess rejectingEnv now output r).1 := by
  constructor
  · simp only [deployProcess, tryCatchLog]
    cases hb : (deployBody env now output r).2 with
    | error e => simp [hb]
    | ok v => simp [hb]
  · simp [deployProcess, deployBody, tryCatchLog, buildProcess, updateStatus, rejectingEnv]

/-- C10: for every test exit code other than 0 and 1 the pipeline posts
final status success while the deploy gate takes the
failure-notification branch, because the status check tests exit code
equal to 1 while the deploy branch tests exit code equal to 0; the
trailing conjuncts show the two do agree at exit codes 0 (success
posted, deploy branch) and 1 (failure posted, failure branch). -/
theorem final_status_and_deploy_branch_agree_only_on_0_1 (env : Env) (now : Nat)
    (output : String) (r : PushPayload)
    (hp : env.pendingData ≠ "") (hf : env.finalData ≠ "")
    (h0 : env.exitCode ≠ 0) (h1 : env.exitCode ≠ 1) :
    Event.statusPost "Commit" (statusRepoURL "Commit" r.statuses_url r.head_commit_id)
        "success" "Build & test case execution success"
      ∈ (deployProcess env now output r).1 ∧
    Event.log "build failed" ∈ (deployProcess env now output r).1 ∧
    Event.log "build successfull" ∉ (deployProcess env now output r).1 ∧
    Event.log "build successfull" ∈ (deployProcess (exampleEnv 0) now output r).1 ∧
    Event.statusPost "Commit" (statusRepoURL "Commit" r.statuses_url r.head_commit_id)
        "success" "Build & test case execution success"
      ∈ (deployProcess (exampleEnv 0) now output r).1 ∧
    Event.log "build failed" ∈ (deployProcess (exampleEnv 1) now output r).1 ∧
    Event.statusPost "Commit" (statusRepoURL "Commit" r.statuses_url r.head_commit_id)
        "failure" "Build & tests failed"
      ∈ (deployProcess (exampleEnv 1) now output r).1 := by
  have hst : buildState env.exitCode = "success" := by simp [buildState, h1]
  have hds : buildDescription env.exitCode = "Build & test case execution success" := by
    simp [buildDescription, h1]
  rw [deployProcess_trace_ok env now output r hp hf,
    buildProcess_trace_ok env r (output ++ toString now ++ ".txt") hp,
    deployProcess_trace_ok (exampleEnv 0) now output r (by decide) (by decide),
    buildProcess_trace_ok (exampleEnv 0) r (output ++ toString now ++ ".txt") (by decide),
    deployProcess_trace_ok (exampleEnv 1) now output r (by decide) (by decide),
    buildProcess_trace_ok (exampleEnv 1) r (output ++ toString now ++ ".txt") (by decide)]
  refine ⟨?_, ?_, ?_, ?_, ?_, ?_, ?_⟩ <;>
    simp [List.mem_cons, List.mem_append, h0, h1, hf, log_not_mem_makeBuild,
      buildState, buildDescription, exampleEnv]

/-- Witness for the C10 theorem at exit code 127. -/
theorem final_status_and_deploy_branch_agree_only_on_0_1_witness :
    (exampleEnv 127).pendingData ≠ "" ∧ (exampleEnv 127).finalData ≠ "" ∧
    (exampleEnv 127).exitCode ≠ 0 ∧ (exampleEnv 127).exitCode ≠ 1 ∧
    (Event.statusPost "Commit"
        (statusRepoURL "Commit" examplePush.statuses_url examplePush.head_commit_id)
        "success" "Build & test case execution success"
      ∈ (deployProcess (exampleEnv 127) 5 "/logs/" examplePush).1 ∧
    Event.log "build failed" ∈ (deployProcess (exampleEnv 127) 5 "/logs/" examplePush).1 ∧
    Event.log "build successfull" ∉ (deployProcess (exampleEnv 127) 5 "/logs/" examplePush).1 ∧
    Event.log "build successfull" ∈ (deployProcess (exampleEnv 0) 5 "/logs/" examplePush).1 ∧
    Event.statusPost "Commit"
        (statusRepoURL "Commit" examplePush.statuses_url examplePush.head_commit_id)
        "success" "Build & test case execution success"
      ∈ (deployProcess (exampleEnv 0) 5 "/logs/" examplePush).1 ∧
    Event.log "build failed" ∈ (deployProcess (exampleEnv 1) 5 "/logs/" examplePush).1 ∧
    Event.statusPost "Commit"
        (statusRepoURL "Commit" examplePush.statuses_url examplePush.head_commit_id)
        "failure" "Build & tests failed"
      ∈ (deployProcess (exampleEnv 1) 5 "/logs/" examplePush).1) :=
  ⟨by decide, by decide, by decide, by decide,
   final_status_and_deploy_branch_agree_only_on_0_1 (exampleEnv 127) 5 "/logs/" examplePush
     (by decide) (by decide) (by decide) (by decide)⟩

end CI
